import Mathlib

/-!
# Verification of the branch-free matrix-value encoder (`problemamatris.py`)

Shallow embedding of the two encoder variants `get_value_optimized_pure`
(reference) and `get_value_simd_optimized` (alternate), of the batch
interface `batch_search`, and of the coordinate decomposer, over `Int`.

Embedding conventions (Python unbounded-integer semantics):
* Python `x & (2^k - 1)` is `x % 2^k` for every integer `x` (Lean's `%` on
  `Int` is Euclidean remainder, which agrees with Python `%` for positive
  modulus, also on negative `x`).
* Python `x >> k` is floor division `x // 2^k`, which for the positive
  divisor `2^k` agrees with Lean's `x / 2^k` on `Int`, also on negative `x`.
* Python `x << k` is `x * 2^k`.
* A Python boolean used in arithmetic contributes `1` (True) or `0` (False);
  this is `pyInd` below.
-/

set_option linter.unusedVariables false

/-- Python boolean used as an integer: `1` when the proposition holds, else `0`. -/
def pyInd (p : Prop) [Decidable p] : Int :=
  if p then 1 else 0

/-- Python `x ^ 1` on an integer: flips the lowest bit.
For every `Int` this equals `x + 1 - 2 * (x % 2)`. -/
def pyXor1 (x : Int) : Int :=
  x + 1 - 2 * (x % 2)

/-- Python `x & 4`: the single bit 2 of `x`, i.e. `4 * ((x / 4) % 2)`. -/
def land4 (x : Int) : Int :=
  4 * ((x / 4) % 2)

/-- Python `a & b` where both operands lie in `{0, 1}` (the only use, in
`get_value_simd_optimized`, has `a = r3 >> 2` and `b = (r3 & 1) ^ 1` with
`r3 = row & 7 ∈ [0,8)`, so both operands are always 0 or 1): the product of
the low bits. -/
def landBit (a b : Int) : Int :=
  (a % 2) * (b % 2)

/-- Lines 30-61 of `problemamatris.py`: the blended tile-local base value
before the column-7 correction, a function of `local_col` alone.
The three successive Python assignments to `odd_base` (the last one wins)
are kept as shadowing `let`s, as are the unused `quarter_is_1/2`. -/
def base_value_pre (local_col : Int) : Int :=
  let is_even_col := 1 - local_col % 2
  let is_odd_col := local_col % 2
  let even_base := 1 + 2 * (local_col / 4)
  let col_quarter := local_col / 2
  let odd_base := 2 * pyInd (col_quarter = 1 ∨ col_quarter = 2)
  let quarter_is_1 := pyInd (col_quarter = 1)
  let quarter_is_2 := pyInd (col_quarter = 2)
  let odd_base := 2 * pyInd (col_quarter - 1 = 0 ∨ col_quarter - 2 = 0)
  let mask_1 := 1 - min 1 |col_quarter - 1|
  let mask_2 := 1 - min 1 |col_quarter - 2|
  let odd_base := 2 * (mask_1 + mask_2)
  is_even_col * even_base + is_odd_col * odd_base

/-- Lines 63-65: the column-7 correction
`base_value -= (local_col == 7) * base_value` applied to `base_value_pre`. -/
def base_value (local_col : Int) : Int :=
  let col7_correction := pyInd (local_col = 7) * base_value_pre local_col
  base_value_pre local_col - col7_correction

/-- Line 69: `row_offset = ((local_row & 1) << 2) + ((local_row >> 2) << 3)`. -/
def row_offset (local_row : Int) : Int :=
  (local_row % 2) * 4 + (local_row / 4) * 8

/-- Line 72: `block_offset = block_row << 4`. -/
def block_offset (block_row : Int) : Int :=
  block_row * 16

/-- Lines 83-97: the special column-15 value (before adding the block
offset), a function of `local_row` alone. -/
def special_value (local_row : Int) : Int :=
  let is_second_half := local_row / 4
  let col15_base := 4 + 8 * is_second_half
  let row_in_half := local_row % 4
  let is_row_odd_in_half := row_in_half % 2
  let is_second_pos_in_half := (row_in_half / 2) % 2
  let col15_adjustment := is_row_odd_in_half * (-4 + 8 * is_second_pos_in_half)
  col15_base + col15_adjustment

/-- Lines 8-106: the reference variant `get_value_optimized_pure`.
Decomposition (lines 22-25): `local_col = col & 7`, `local_row = row & 7`,
`block_row = row >> 3`, `col_block = col >> 3`; then the base pattern, the
row/block offsets, the column-15 override blended by the 0/1 mask
`is_col_15 = (col_block == 1) & (local_col == 7)`, and the final `& 0xFF`. -/
def get_value_optimized_pure (row col : Int) : Int :=
  let local_col := col % 8
  let local_row := row % 8
  let block_row := row / 8
  let col_block := col / 8
  let is_col_15 := pyInd (col_block = 1 ∧ local_col = 7)
  let special_result := special_value local_row + block_offset block_row
  let normal_result := base_value local_col + row_offset local_row + block_offset block_row
  let final_result := normal_result * (1 - is_col_15) + special_result * is_col_15
  final_result % 256

/-- Lines 109-148: the alternate variant `get_value_simd_optimized`, with the
same decomposition (`r3 = row & 7`, `c3 = col & 7`, `rb = row >> 3`,
`cb = col >> 3`) but differently regrouped bit operations:
`base = c_even * (1 + 2*h - 2*(q == 3)) + (c3 & 1) * (2*(q & 1)*(h ^ 1))`,
`r_off = ((r3 & 1) << 2) + ((r3 & 4) << 1)`,
`special = 4 + 8*(r3 >> 2) - 4*(r3 & 1)*((r3 >> 2) ^ 1)
           + 4*((r3 >> 2) & ((r3 & 1) ^ 1))`. -/
def get_value_simd_optimized (row col : Int) : Int :=
  let r3 := row % 8
  let c3 := col % 8
  let rb := row / 8
  let cb := col / 8
  let c_even := pyXor1 (c3 % 2)
  let q := c3 / 2
  let h := c3 / 4
  let base := c_even * (1 + 2 * h - 2 * pyInd (q = 3)) + (c3 % 2) * (2 * (q % 2) * pyXor1 h)
  let r_off := (r3 % 2) * 4 + (land4 r3) * 2
  let b_off := rb * 16
  let col15_mask := pyInd (cb = 1 ∧ c3 = 7)
  let special := 4 + 8 * (r3 / 4) - 4 * (r3 % 2) * pyXor1 (r3 / 4) +
    4 * landBit (r3 / 4) (pyXor1 (r3 % 2))
  let result := (base + r_off + b_off) * pyXor1 col15_mask + (special + b_off) * col15_mask
  result % 256

/-- Lines 159-170: the golden test table `test_cases` of
`verify_mathematical_formula`, as `(row, col, expected)` triples. -/
def test_cases : List (Int × Int × Int) :=
  [(0, 0, 1), (0, 1, 0), (0, 2, 1), (0, 7, 0), (0, 15, 4),
   (1, 0, 5), (1, 1, 4), (1, 15, 0),
   (2, 0, 1), (2, 15, 4),
   (3, 0, 5), (3, 15, 8),
   (4, 0, 9), (4, 15, 12),
   (5, 0, 13), (5, 15, 8),
   (6, 0, 9), (6, 15, 12),
   (7, 0, 13), (7, 15, 16),
   (8, 0, 17), (8, 15, 20),
   (15, 15, 32)]

/-- Modelled from the spec (section 4.4 / claim wording): the column-15
override formula
`(4 + 8*(local_row >> 2) + (local_row & 3 & 1) * (-4 + 8*(((local_row & 3) >> 1) & 1))
  + 16*(row >> 3)) & 0xFF` with `local_row = row & 7`, written with the
arithmetic equivalents of the bit operations. -/
def spec_col15_formula (row : Int) : Int :=
  let local_row := row % 8
  (4 + 8 * (local_row / 4) +
    ((local_row % 4) % 2) * (-4 + 8 * (((local_row % 4) / 2) % 2)) +
    16 * (row / 8)) % 256

/-- Lines 22-25 of `get_value_optimized_pure` for the non-negative
coordinates the claim quantifies over, with the genuine bitwise operations:
`(col & 7, row & 7, row >> 3, col >> 3)`. -/
def decompose (row col : Nat) : Nat × Nat × Nat × Nat :=
  (col &&& 7, row &&& 7, row >>> 3, col >>> 3)

/-- An entry handed to `batch_search`: either a well-formed coordinate pair,
or a malformed entry (non-numeric coordinate) whose evaluation raises, the
exception text standing in for the Python exception caught on lines 294-295. -/
inductive Entry where
  | coord (row col : Int) : Entry
  | malformed (err : String) : Entry
deriving DecidableEq, Inhabited

/-- One iteration of the `batch_search` loop body (lines 290-295): evaluate
`get_value_optimized_pure` inside `try`, turning a raised exception into the
per-entry `ERROR` report instead of aborting. -/
def eval_entry : Entry → Option Int
  | .coord r c => some (get_value_optimized_pure r c)
  | .malformed _ => none

/-- Lines 279-295: `batch_search` walks the input list in order and emits one
report line per entry: the encoded value for a well-formed entry, `none`
(the `ERROR` line) for an entry whose evaluation raised. -/
def batch_search : List Entry → List (Option Int)
  | [] => []
  | e :: rest => eval_entry e :: batch_search rest

/-- `get_value_optimized_pure` with the lines 63-65 column-7 correction
removed (the base pattern is taken before the correction), used to state
that the correction is a no-op. -/
def get_value_optimized_pure_nocorrection (row col : Int) : Int :=
  let local_col := col % 8
  let local_row := row % 8
  let block_row := row / 8
  let col_block := col / 8
  let is_col_15 := pyInd (col_block = 1 ∧ local_col = 7)
  let special_result := special_value local_row + block_offset block_row
  let normal_result := base_value_pre local_col + row_offset local_row + block_offset block_row
  let final_result := normal_result * (1 - is_col_15) + special_result * is_col_15
  final_result % 256

/-! ## Theorems -/

/-- C2: The reference encoder matches every entry of the fixed golden table
exactly: for every `(row, col, expected)` triple in `test_cases`,
`get_value_optimized_pure row col = expected` (in particular
`(0,0) ↦ 1`, `(0,1) ↦ 0`, `(0,7) ↦ 0`, `(0,15) ↦ 4`, `(7,15) ↦ 16`,
`(8,0) ↦ 17`). -/
theorem golden_table_conformance :
    test_cases.all (fun t => get_value_optimized_pure t.1 t.2.1 == t.2.2) = true := by
  decide

/-- C1: the claim that `get_value_optimized_pure` and `get_value_simd_optimized`
agree on every non-negative pair is false on the code: at `(row, col) = (0, 5)`
the reference variant returns 2 while the alternate variant returns 0 (the
SIMD odd-column base term `2*(q & 1)*(h ^ 1)` vanishes at `c3 = 5` where the
reference base is 2). -/
theorem simd_variant_mismatch :
    get_value_optimized_pure 0 5 = 2 ∧ get_value_simd_optimized 0 5 = 0 := by
  decide

/-- The correction on lines 63-65 never changes the base value. -/
lemma base_value_eq_pre (x : Int) : base_value x = base_value_pre x := by
  unfold base_value
  by_cases h : x = 7
  · subst h; decide
  · simp [pyInd, h]

/-- C9: the column-7 correction of the reference variant is a no-op: the
pre-correction base at `local_col = 7` is already 0, so the encoder with the
correction removed is extensionally equal to the reference encoder on all
integer inputs. -/
theorem col7_correction_noop :
    base_value_pre 7 = 0 ∧
    ∀ row col : Int,
      get_value_optimized_pure_nocorrection row col = get_value_optimized_pure row col := by
  refine ⟨by decide, fun row col => ?_⟩
  simp only [get_value_optimized_pure, get_value_optimized_pure_nocorrection,
    base_value_eq_pre]

/-- Any Euclidean remainder mod 256 is a byte. -/
lemma emod256_bounds (x : Int) : 0 ≤ x % 256 ∧ x % 256 ≤ 255 := by
  omega

/-- C6: for every non-negative `(row, col)`,
`0 ≤ get_value_optimized_pure row col ≤ 255`. -/
theorem encode_range (row col : Int) (hr : 0 ≤ row) (hc : 0 ≤ col) :
    0 ≤ get_value_optimized_pure row col ∧ get_value_optimized_pure row col ≤ 255 :=
  emod256_bounds _

/-- Witness for C6 at `(row, col) = (3, 5)`. -/
theorem encode_range_witness :
    0 ≤ get_value_optimized_pure 3 5 ∧ get_value_optimized_pure 3 5 ≤ 255 :=
  encode_range 3 5 (by decide) (by decide)

/-- C10: both variants are total over ALL integer inputs, including negative
coordinates, and always return a value in `[0, 255]` (the final `& 0xFF`
yields a non-negative byte even when intermediate values are negative). -/
theorem encoders_total_range (row col : Int) :
    (0 ≤ get_value_optimized_pure row col ∧ get_value_optimized_pure row col ≤ 255) ∧
    (0 ≤ get_value_simd_optimized row col ∧ get_value_simd_optimized row col ≤ 255) :=
  ⟨emod256_bounds _, emod256_bounds _⟩

/-- C3: for every non-negative `row`, `get_value_optimized_pure row 15`
equals the section-4.4 override formula (base 4/12 per half, odd-position
adjustment, plus `16 * (row >> 3)`, all `& 0xFF`), not the normal
base+row_offset+block_offset path. -/
theorem col15_override (row : Int) (h : 0 ≤ row) :
    get_value_optimized_pure row 15 = spec_col15_formula row := by
  have h0 : 0 ≤ row % 8 := Int.emod_nonneg row (by decide)
  have h8 : row % 8 < 8 := Int.emod_lt_of_pos row (by decide)
  have hc : (15 : Int) % 8 = 7 := by decide
  have hb : (15 : Int) / 8 = 1 := by decide
  have hbase : base_value 7 = 0 := by decide
  simp only [get_value_optimized_pure, spec_col15_formula, special_value, block_offset,
    row_offset, hc, hb, hbase, pyInd, and_self, if_true]
  norm_num
  generalize row % 8 = r at *
  generalize row / 8 = b
  interval_cases r <;> norm_num <;> omega

/-- Witness for C3 at `row = 5`. -/
theorem col15_override_witness :
    get_value_optimized_pure 5 15 = spec_col15_formula 5 :=
  col15_override 5 (by decide)

/-- C4: for `local_col ∈ [0, 8)` the corrected tile-local base value follows
the table `[1, 0, 1, 2, 3, 2, 3, 0]`; on even columns it is
`1 + 2 * (local_col >> 2)`, on odd columns
`2 * (indicator(quarter = 1) + indicator(quarter = 2))` with
`quarter = local_col >> 1`; the `local_col = 7` case is 0; and the
pre-correction base lies in `[0, 3]`. -/
theorem base_pattern_values (c : Int) (h0 : 0 ≤ c) (h8 : c < 8) :
    base_value c = ([1, 0, 1, 2, 3, 2, 3, 0] : List Int).getD c.toNat 0 ∧
    (c % 2 = 0 → base_value c = 1 + 2 * (c / 4)) ∧
    (c % 2 = 1 → base_value c = 2 * (pyInd (c / 2 = 1) + pyInd (c / 2 = 2))) ∧
    base_value 7 = 0 ∧
    (0 ≤ base_value_pre c ∧ base_value_pre c ≤ 3) := by
  interval_cases c <;> decide

/-- Witness for C4 at `local_col = 2`. -/
theorem base_pattern_values_witness :
    base_value 2 = ([1, 0, 1, 2, 3, 2, 3, 0] : List Int).getD (2 : Int).toNat 0 ∧
    ((2 : Int) % 2 = 0 → base_value 2 = 1 + 2 * ((2 : Int) / 4)) ∧
    ((2 : Int) % 2 = 1 →
      base_value 2 = 2 * (pyInd ((2 : Int) / 2 = 1) + pyInd ((2 : Int) / 2 = 2))) ∧
    base_value 7 = 0 ∧
    (0 ≤ base_value_pre 2 ∧ base_value_pre 2 ≤ 3) :=
  base_pattern_values 2 (by decide) (by decide)

/-- C5: for every non-negative `row` and every non-special `col`
(`¬(col >> 3 = 1 ∧ col & 7 = 7)`), stepping 8 rows adds exactly 16 modulo
256: `get_value_optimized_pure (row+8) col = (get_value_optimized_pure row col + 16) % 256`. -/
theorem row_periodicity (row col : Int) (hr : 0 ≤ row) (hc : 0 ≤ col)
    (hns : ¬(col / 8 = 1 ∧ col % 8 = 7)) :
    get_value_optimized_pure (row + 8) col = (get_value_optimized_pure row col + 16) % 256 := by
  have e1 : (row + 8) % 8 = row % 8 := by omega
  have e2 : (row + 8) / 8 = row / 8 + 1 := by omega
  simp only [get_value_optimized_pure, block_offset, e1, e2, pyInd, if_neg hns]
  generalize base_value (col % 8) = k1
  generalize row_offset (row % 8) = k2
  ring_nf
  omega

/-- Witness for C5 at `(row, col) = (1, 2)`. -/
theorem row_periodicity_witness :
    get_value_optimized_pure (1 + 8) 2 = (get_value_optimized_pure 1 2 + 16) % 256 :=
  row_periodicity 1 2 (by decide) (by decide) (by decide)

/-- C7: the bitwise decomposition of lines 22-25 agrees with the arithmetic
one on every non-negative coordinate: `col &&& 7 = col % 8`,
`row &&& 7 = row % 8`, `row >>> 3 = row / 8`, `col >>> 3 = col / 8`, and the
coordinates recompose: `row = (row >>> 3)*8 + (row &&& 7)` and likewise for
`col`. -/
theorem decompose_bitwise_arith (row col : Nat) :
    decompose row col = (col % 8, row % 8, row / 8, col / 8) ∧
    row = (row >>> 3) * 8 + (row &&& 7) ∧
    col = (col >>> 3) * 8 + (col &&& 7) := by
  have ha : ∀ n : Nat, n &&& 7 = n % 8 := fun n => Nat.and_pow_two_sub_one_eq_mod n 3
  have hs : ∀ n : Nat, n >>> 3 = n / 8 := fun n => Nat.shiftRight_eq_div_pow n 3
  refine ⟨by simp [decompose, ha, hs], by rw [ha, hs]; omega, by rw [ha, hs]; omega⟩

/-- C8: `batch_search` emits exactly one report per entry, in input order
(element `i` is the evaluation of input `i`), and a failing entry yields a
per-entry error report while every other entry is still processed: the
batch over `xs ++ bad :: ys` is the batch over `xs`, then the error, then
the batch over `ys` — it never aborts. -/
theorem batch_search_spec :
    (∀ l : List Entry, (batch_search l).length = l.length) ∧
    (∀ l : List Entry, ∀ i : Nat, i < l.length →
        (batch_search l).getD i none = eval_entry (l.getD i default)) ∧
    (∀ xs ys : List Entry, ∀ e : Entry,
        batch_search (xs ++ e :: ys) = batch_search xs ++ eval_entry e :: batch_search ys) := by
  refine ⟨?_, ?_, ?_⟩
  · intro l
    induction l with
    | nil => rfl
    | cons e rest ih => simp [batch_search, ih]
  · intro l
    induction l with
    | nil => intro i hi; simp at hi
    | cons e rest ih =>
      intro i hi
      cases i with
      | zero => rfl
      | succ j =>
        have hj : j < rest.length := by simpa using hi
        simpa [batch_search, List.getD_cons_succ] using ih j hj
  · intro xs ys e
    induction xs with
    | nil => rfl
    | cons a as ih => simp [batch_search, ih]

/-- Witness for C8 on the list `[coord 0 0, malformed "bad", coord 1 1]`
at index 1 (the malformed entry). -/
theorem batch_search_spec_witness :
    1 < ([Entry.coord 0 0, Entry.malformed "bad", Entry.coord 1 1] : List Entry).length ∧
    (batch_search [Entry.coord 0 0, Entry.malformed "bad", Entry.coord 1 1]).getD 1 none =
      eval_entry (([Entry.coord 0 0, Entry.malformed "bad", Entry.coord 1 1] :
        List Entry).getD 1 default) :=
  ⟨by decide, batch_search_spec.2.1 [Entry.coord 0 0, Entry.malformed "bad", Entry.coord 1 1]
    1 (by decide)⟩
